import Mathlib

/-!
Shallow embedding of `src/stepper_plan.c` (grbl motion planner).

Modelling conventions:
* C `double` values are modelled as exact rationals `ℚ`.  The one operation on
  doubles that has no exact rational counterpart, `sqrt`, is passed to every
  function that needs it as an explicit parameter `sq : ℚ → ℚ`; all theorems
  below quantify over `sq`, so no conclusion depends on how `sqrt` is rounded.
* C machine integers (`int8_t`, `int32_t`, `uint32_t`) are modelled as `ℤ`;
  none of the claims exercises wrap-around, and the spec places overflowing
  inputs outside the contract (§7).
* C's truncated remainder `%` on signed operands is `Int.tmod`.
* Operations that are undefined behaviour in the C source - dereferencing a
  NULL block pointer, indexing `block_buffer` out of bounds, converting a
  non-finite `double` (from a division by zero) to an integer - are modelled
  as `Except.error`; everything defined returns `Except.ok`.
* The ring buffer `block_buffer[BLOCK_BUFFER_SIZE]` is a `List block_t`;
  `C BLOCK_BUFFER_SIZE`, `ACCELERATION_TICKS_PER_SECOND`, the direction-bit
  numbers and the `settings` record (all defined outside `stepper_plan.c`)
  are carried in a `config_t` parameter.
-/

/-- The `settings` record read by the planner (`settings.acceleration`,
`settings.max_jerk`, `settings.steps_per_mm[0..2]`). -/
structure settings_t where
  acceleration : ℚ
  max_jerk : ℚ
  steps_per_mm_x : ℚ
  steps_per_mm_y : ℚ
  steps_per_mm_z : ℚ
deriving DecidableEq

/-- Compile-time constants of the firmware build together with the
`settings` record. -/
structure config_t where
  BLOCK_BUFFER_SIZE : ℤ
  ACCELERATION_TICKS_PER_SECOND : ℤ
  X_DIRECTION_BIT : ℕ
  Y_DIRECTION_BIT : ℕ
  Z_DIRECTION_BIT : ℕ
  settings : settings_t
deriving DecidableEq

/-- One entry of `block_buffer` (`block_t`). -/
structure block_t where
  steps_x : ℤ
  steps_y : ℤ
  steps_z : ℤ
  step_event_count : ℤ
  nominal_rate : ℤ
  nominal_speed : ℚ
  millimeters : ℚ
  speed_x : ℚ
  speed_y : ℚ
  speed_z : ℚ
  entry_factor : ℚ
  rate_delta : ℤ
  initial_rate : ℤ
  accelerate_until : ℤ
  decelerate_after : ℤ
  direction_bits : ℕ
deriving DecidableEq

/-- A `block_t` with every field zero: C zero-initialises the global
`block_buffer` array. -/
def zero_block : block_t :=
  { steps_x := 0, steps_y := 0, steps_z := 0, step_event_count := 0
    nominal_rate := 0, nominal_speed := 0, millimeters := 0
    speed_x := 0, speed_y := 0, speed_z := 0, entry_factor := 0
    rate_delta := 0, initial_rate := 0, accelerate_until := 0
    decelerate_after := 0, direction_bits := 0 }

/-- The module-level mutable state of `stepper_plan.c`: the ring buffer, the
two indices and the acceleration-management flag. -/
structure planner_state_t where
  block_buffer : List block_t
  block_buffer_head : ℤ
  block_buffer_tail : ℤ
  acceleration_management : Bool
deriving DecidableEq

/-- Read `block_buffer[i]`.  An index outside `[0, BLOCK_BUFFER_SIZE)` (or
outside the backing array) is an out-of-bounds access, i.e. undefined
behaviour in C, hence an error. -/
def buf_read (cfg : config_t) (s : planner_state_t) (i : ℤ) :
    Except String block_t :=
  if 0 ≤ i ∧ i < cfg.BLOCK_BUFFER_SIZE then
    match s.block_buffer.get? i.toNat with
    | some b => .ok b
    | none => .error "block_buffer index out of bounds"
  else .error "block_buffer index out of bounds"

/-- Write `block_buffer[i]`, with the same bounds discipline as `buf_read`. -/
def buf_write (cfg : config_t) (s : planner_state_t) (i : ℤ) (b : block_t) :
    Except String planner_state_t :=
  if 0 ≤ i ∧ i < cfg.BLOCK_BUFFER_SIZE then
    if i.toNat < s.block_buffer.length then
      .ok { s with block_buffer := s.block_buffer.set i.toNat b }
    else .error "block_buffer index out of bounds"
  else .error "block_buffer index out of bounds"

/-- `estimate_acceleration_distance` (stepper_plan.c:74):
`(target_rate² - initial_rate²) / (2·acceleration)`. -/
def estimate_acceleration_distance (initial_rate target_rate acceleration : ℚ) : ℚ :=
  (target_rate * target_rate - initial_rate * initial_rate) / (2 * acceleration)

/-- `intersection_distance` (stepper_plan.c:96):
`(2·a·d - initial_rate² + final_rate²) / (4·a)`. -/
def intersection_distance (initial_rate final_rate acceleration distance : ℚ) : ℚ :=
  (2 * acceleration * distance - initial_rate * initial_rate
    + final_rate * final_rate) / (4 * acceleration)

/-- `max_allowable_speed` (stepper_plan.c:143):
`sqrt(target_velocity² - 2·acceleration·distance)`. -/
def max_allowable_speed (sq : ℚ → ℚ) (acceleration target_velocity distance : ℚ) : ℚ :=
  sq (target_velocity * target_velocity - 2 * acceleration * distance)

/-- `junction_jerk` (stepper_plan.c:152): euclidean distance between the
per-axis nominal speeds of two adjacent blocks. -/
def junction_jerk (sq : ℚ → ℚ) (before after : block_t) : ℚ :=
  sq ((before.speed_x - after.speed_x) ^ 2
    + (before.speed_y - after.speed_y) ^ 2
    + (before.speed_z - after.speed_z) ^ 2)

/-- `calculate_trapezoid_for_block` (stepper_plan.c:116).  Note line 118 of
the source: `final_rate` is computed from `entry_factor`, not `exit_factor`.
When `acceleration_per_minute = 0` the two `estimate_acceleration_distance`
calls divide by zero and the `(int32_t)ceil(...)` conversions of the
resulting non-finite doubles are undefined behaviour, hence an error. -/
def calculate_trapezoid_for_block (cfg : config_t) (block : block_t)
    (entry_factor exit_factor : ℚ) : Except String block_t :=
  let initial_rate : ℤ := ⌈(block.nominal_rate : ℚ) * entry_factor⌉
  let final_rate : ℤ := ⌈(block.nominal_rate : ℚ) * entry_factor⌉
  let acceleration_per_minute : ℤ :=
    block.rate_delta * cfg.ACCELERATION_TICKS_PER_SECOND * 60
  if acceleration_per_minute = 0 then
    .error "int32 conversion of non-finite double (zero acceleration_per_minute)"
  else
    let accelerate_steps : ℤ :=
      ⌈estimate_acceleration_distance (initial_rate : ℚ) (block.nominal_rate : ℚ)
        (acceleration_per_minute : ℚ)⌉
    let decelerate_steps : ℤ :=
      ⌈estimate_acceleration_distance (block.nominal_rate : ℚ) (final_rate : ℚ)
        (-(acceleration_per_minute : ℚ))⌉
    let plateau_steps : ℤ := block.step_event_count - accelerate_steps - decelerate_steps
    let ap : ℤ × ℤ :=
      if plateau_steps < 0 then
        let a : ℤ := ⌈intersection_distance (initial_rate : ℚ) (final_rate : ℚ)
          (acceleration_per_minute : ℚ) (block.step_event_count : ℚ)⌉
        (a, block.step_event_count - 2 * a)
      else (accelerate_steps, plateau_steps)
    .ok { block with
          initial_rate := initial_rate
          accelerate_until := ap.1
          decelerate_after := ap.1 + ap.2 }

/-- `planner_reverse_pass_kernel` (stepper_plan.c:161).  Block pointers are
modelled as `Option ℤ` buffer indices; `none` is NULL. -/
def planner_reverse_pass_kernel (cfg : config_t) (sq : ℚ → ℚ)
    (s : planner_state_t) (previous current next : Option ℤ) :
    Except String planner_state_t :=
  match current with
  | none => .ok s
  | some ci => do
    let cur ← buf_read cfg s ci
    let exit_factor : ℚ ←
      match next with
      | some ni => do
          let nxt ← buf_read cfg s ni
          pure nxt.entry_factor
      | none => pure (0 : ℚ)
    match previous with
    | some pi => do
        let prev ← buf_read cfg s pi
        let jerk : ℚ := junction_jerk sq prev cur
        let entry_factor : ℚ :=
          if cfg.settings.max_jerk < jerk then cfg.settings.max_jerk / jerk else 1
        let entry_factor : ℚ :=
          if exit_factor < entry_factor then
            let max_entry_speed : ℚ := max_allowable_speed sq
              (-cfg.settings.acceleration) (cur.nominal_speed * exit_factor)
              cur.millimeters
            let max_entry_factor : ℚ := max_entry_speed / cur.nominal_speed
            if max_entry_factor < entry_factor then max_entry_factor else entry_factor
          else entry_factor
        buf_write cfg s ci { cur with entry_factor := entry_factor }
    | none => buf_write cfg s ci { cur with entry_factor := 0 }

/-- The `while` loop of `planner_reverse_pass` (stepper_plan.c:201); `fuel`
bounds the iteration count (any terminating C execution uses fewer steps).
Returns the final window slots `block[0]`, `block[1]` for the trailing
kernel call. -/
def planner_reverse_pass_loop (cfg : config_t) (sq : ℚ → ℚ) :
    ℕ → planner_state_t → ℤ → Option ℤ → Option ℤ → Option ℤ →
    Except String (planner_state_t × Option ℤ × Option ℤ)
  | 0, _, _, _, _, _ => .error "reverse pass exceeded fuel"
  | Nat.succ fuel, s, block_index, b0, b1, _b2 =>
    if block_index = s.block_buffer_tail then .ok (s, b0, b1)
    else do
      let b2' := b1
      let b1' := b0
      let b0' : Option ℤ := some block_index
      let s' ← planner_reverse_pass_kernel cfg sq s b0' b1' b2'
      planner_reverse_pass_loop cfg sq fuel s'
        (Int.tmod (block_index - 1) cfg.BLOCK_BUFFER_SIZE) b0' b1' b2'

/-- `planner_reverse_pass` (stepper_plan.c:198): walk from
`block_buffer_head`, decrementing with C's truncated `%`, then run the
kernel once more with a NULL `previous`. -/
def planner_reverse_pass (cfg : config_t) (sq : ℚ → ℚ) (s : planner_state_t) :
    Except String planner_state_t := do
  let r ← planner_reverse_pass_loop cfg sq ((2 * cfg.BLOCK_BUFFER_SIZE).toNat + 4)
    s s.block_buffer_head none none none
  planner_reverse_pass_kernel cfg sq r.1 none r.2.1 r.2.2

/-- `planner_forward_pass_kernel` (stepper_plan.c:212).  The source checks
`current` for NULL but dereferences `previous` unconditionally
(`previous->entry_factor`, line 218): a NULL `previous` is an error. -/
def planner_forward_pass_kernel (cfg : config_t) (sq : ℚ → ℚ)
    (s : planner_state_t) (previous current next : Option ℤ) :
    Except String planner_state_t :=
  match current with
  | none => .ok s
  | some ci => do
    let cur ← buf_read cfg s ci
    let prev ← match previous with
      | some pi => buf_read cfg s pi
      | none => Except.error "null pointer dereference (previous)"
    if prev.entry_factor < cur.entry_factor then
      let max_entry_speed : ℚ := max_allowable_speed sq
        (-cfg.settings.acceleration) (cur.nominal_speed * prev.entry_factor)
        prev.millimeters
      let max_entry_factor : ℚ := max_entry_speed / cur.nominal_speed
      if max_entry_factor < cur.entry_factor then
        buf_write cfg s ci { cur with entry_factor := max_entry_factor }
      else .ok s
    else .ok s

/-- The `while` loop of `planner_forward_pass` (stepper_plan.c:234). -/
def planner_forward_pass_loop (cfg : config_t) (sq : ℚ → ℚ) :
    ℕ → planner_state_t → ℤ → Option ℤ → Option ℤ → Option ℤ →
    Except String (planner_state_t × Option ℤ × Option ℤ)
  | 0, _, _, _, _, _ => .error "forward pass exceeded fuel"
  | Nat.succ fuel, s, block_index, _b0, b1, b2 =>
    if block_index = s.block_buffer_head then .ok (s, b1, b2)
    else do
      let b0' := b1
      let b1' := b2
      let b2' : Option ℤ := some block_index
      let s' ← planner_forward_pass_kernel cfg sq s b0' b1' b2'
      planner_forward_pass_loop cfg sq fuel s'
        (Int.tmod (block_index + 1) cfg.BLOCK_BUFFER_SIZE) b0' b1' b2'

/-- `planner_forward_pass` (stepper_plan.c:230): walk from
`block_buffer_tail` to `block_buffer_head`, then run the kernel once more
with a NULL `next`. -/
def planner_forward_pass (cfg : config_t) (sq : ℚ → ℚ) (s : planner_state_t) :
    Except String planner_state_t := do
  let r ← planner_forward_pass_loop cfg sq ((2 * cfg.BLOCK_BUFFER_SIZE).toNat + 4)
    s s.block_buffer_tail none none none
  planner_forward_pass_kernel cfg sq r.1 r.2.1 r.2.2 none

/-- The `while` loop of `planner_recalculate_trapezoids`
(stepper_plan.c:252); returns the final `next` pointer for the trailing
call. -/
def planner_recalculate_trapezoids_loop (cfg : config_t) :
    ℕ → planner_state_t → ℤ → Option ℤ →
    Except String (planner_state_t × Option ℤ)
  | 0, _, _, _ => .error "trapezoid recomputation exceeded fuel"
  | Nat.succ fuel, s, block_index, next =>
    if block_index = s.block_buffer_head then .ok (s, next)
    else do
      let current := next
      let s' ← match current with
        | some ci => do
            let cur ← buf_read cfg s ci
            let nxt ← buf_read cfg s block_index
            let cur' ← calculate_trapezoid_for_block cfg cur
              cur.entry_factor nxt.entry_factor
            buf_write cfg s ci cur'
        | none => pure s
      planner_recalculate_trapezoids_loop cfg fuel s'
        (Int.tmod (block_index + 1) cfg.BLOCK_BUFFER_SIZE) (some block_index)

/-- `planner_recalculate_trapezoids` (stepper_plan.c:247).  The trailing
call `calculate_trapezoid_for_block(next, next->entry_factor, 0.0)`
dereferences `next`, which is NULL when the queue is empty. -/
def planner_recalculate_trapezoids (cfg : config_t) (s : planner_state_t) :
    Except String planner_state_t := do
  let r ← planner_recalculate_trapezoids_loop cfg
    ((2 * cfg.BLOCK_BUFFER_SIZE).toNat + 4) s s.block_buffer_tail none
  match r.2 with
  | some ni => do
      let nxt ← buf_read cfg r.1 ni
      let nxt' ← calculate_trapezoid_for_block cfg nxt nxt.entry_factor 0
      buf_write cfg r.1 ni nxt'
  | none => .error "null pointer dereference (next)"

/-- `planner_recalculate` (stepper_plan.c:280): reverse pass, forward pass,
trapezoid recomputation, in that order. -/
def planner_recalculate (cfg : config_t) (sq : ℚ → ℚ) (s : planner_state_t) :
    Except String planner_state_t := do
  let s ← planner_reverse_pass cfg sq s
  let s ← planner_forward_pass cfg sq s
  planner_recalculate_trapezoids cfg s

/-- `plan_buffer_line` (stepper_plan.c:309).  A full buffer parks the caller
in a `sleep_mode()` loop waiting on the consumer; the sequential model
reports that as an error.  Divisions whose C result is a non-finite double
later converted to an integer (zero `microseconds`, zero
`travel_per_step`) are errors at the conversion point. -/
def plan_buffer_line (cfg : config_t) (sq : ℚ → ℚ) (s : planner_state_t)
    (steps_x steps_y steps_z : ℤ) (microseconds : ℤ) (millimeters : ℚ) :
    Except String planner_state_t :=
  let next_buffer_head : ℤ :=
    Int.tmod (s.block_buffer_head + 1) cfg.BLOCK_BUFFER_SIZE
  if s.block_buffer_tail = next_buffer_head then
    .error "caller parked: buffer full"
  else do
    let bidx : ℤ := s.block_buffer_head
    let block ← buf_read cfg s bidx
    let block := { block with
      steps_x := |steps_x|, steps_y := |steps_y|, steps_z := |steps_z| }
    let block := { block with
      step_event_count := max block.steps_x (max block.steps_y block.steps_z) }
    if block.step_event_count = 0 then
      buf_write cfg s bidx block
    else if microseconds = 0 then
      .error "uint32 conversion of non-finite double (zero microseconds)"
    else
      let multiplier : ℚ := 60 * 1000000 / (microseconds : ℚ)
      let block := { block with
        speed_x := (block.steps_x : ℚ) * multiplier / cfg.settings.steps_per_mm_x
        speed_y := (block.steps_y : ℚ) * multiplier / cfg.settings.steps_per_mm_y
        speed_z := (block.steps_z : ℚ) * multiplier / cfg.settings.steps_per_mm_z
        nominal_speed := millimeters * multiplier
        nominal_rate := ⌈(block.step_event_count : ℚ) * multiplier⌉ }
      let travel_per_step : ℚ := millimeters / (block.step_event_count : ℚ)
      if travel_per_step = 0 then
        .error "int32 conversion of non-finite double (zero travel_per_step)"
      else do
        let block := { block with rate_delta :=
          ⌈(cfg.settings.acceleration * 60 /
              (cfg.ACCELERATION_TICKS_PER_SECOND : ℚ)) / travel_per_step⌉ }
        let block ←
          if s.acceleration_management then
            calculate_trapezoid_for_block cfg block 0 0
          else
            pure { block with
              accelerate_until := 0, decelerate_after := 0, rate_delta := 0 }
        let block := { block with direction_bits :=
          (if steps_x < 0 then 1 <<< cfg.X_DIRECTION_BIT else 0) |||
          (if steps_y < 0 then 1 <<< cfg.Y_DIRECTION_BIT else 0) |||
          (if steps_z < 0 then 1 <<< cfg.Z_DIRECTION_BIT else 0) }
        let s ← buf_write cfg s bidx block
        let s := { s with block_buffer_head := next_buffer_head }
        if s.acceleration_management then
          planner_recalculate cfg sq s
        else do
          let b ← buf_read cfg s bidx
          let b' ← calculate_trapezoid_for_block cfg b 1 1
          buf_write cfg s bidx b'

/-! Concrete fixtures used by the theorems below.  `demo_config` uses the
grbl-style constants `BLOCK_BUFFER_SIZE = 5`,
`ACCELERATION_TICKS_PER_SECOND = 40` and the settings of spec §8 scenario 1
(`acceleration = 1000`, `max_jerk = 5`, `steps_per_mm = 100`). -/

def demo_config : config_t :=
  { BLOCK_BUFFER_SIZE := 5, ACCELERATION_TICKS_PER_SECOND := 40
    X_DIRECTION_BIT := 0, Y_DIRECTION_BIT := 1, Z_DIRECTION_BIT := 2
    settings := { acceleration := 1000, max_jerk := 5
                  steps_per_mm_x := 100, steps_per_mm_y := 100
                  steps_per_mm_z := 100 } }

/-- A 3-step block too short to reach its nominal rate: with
`acceleration_per_minute = 1·40·60 = 2400` the ramp to rate 100 needs
`⌈100²/4800⌉ = 3` step events each way, so the plateau is negative. -/
def short_block : block_t :=
  { zero_block with step_event_count := 3, nominal_rate := 100, rate_delta := 1 }

/-- Queue with a single admitted block: slot 0 queued, slot 1 is the
sentinel the producer will fill next. -/
def one_block_state : planner_state_t :=
  { block_buffer := List.replicate 5 zero_block
    block_buffer_head := 1, block_buffer_tail := 0
    acceleration_management := true }

/-- A reachable wrapped queue: the producer has admitted five blocks and
wrapped (`head = 0`), the consumer has drained three (`tail = 3`), so slots
3 and 4 are queued. -/
def wrapped_state : planner_state_t :=
  { block_buffer := List.replicate 5 zero_block
    block_buffer_head := 0, block_buffer_tail := 3
    acceleration_management := true }

/-- Empty queue, acceleration management enabled (the state after
`plan_init()`). -/
def empty_enabled_state : planner_state_t :=
  { block_buffer := List.replicate 5 zero_block
    block_buffer_head := 0, block_buffer_tail := 0
    acceleration_management := true }

/-- Empty queue, acceleration management disabled. -/
def empty_disabled_state : planner_state_t :=
  { block_buffer := List.replicate 5 zero_block
    block_buffer_head := 0, block_buffer_tail := 0
    acceleration_management := false }

/-- One-block queue whose slots all carry `entry_factor = 1`, so a write of
`0` into the sentinel slot is observable. -/
def sentinel_state : planner_state_t :=
  { block_buffer := List.replicate 5 { zero_block with entry_factor := 1 }
    block_buffer_head := 1, block_buffer_tail := 0
    acceleration_management := true }

/-- The partial writes that `plan_buffer_line` leaves in the (unpublished)
sentinel slot when it bails out on a zero-length move. -/
def zero_length_scratch (b : block_t) : block_t :=
  { b with steps_x := 0, steps_y := 0, steps_z := 0, step_event_count := 0 }

unseal Rat.mul Rat.add Rat.sub Rat.inv Rat.ofScientific in
/-- C1: the claim says `calculate_trapezoid_for_block` computes
`final_rate = ceil(nominal_rate · exit_factor)` so the block brakes to
`nominal_rate · exit_factor`.  In the source (line 118) `final_rate` is
computed from `entry_factor`; the `exit_factor` argument is dead, so the
function's result is independent of it, and on a concrete block with
`entry_factor = 1, exit_factor = 0` the profile contains no deceleration
ramp at all (`decelerate_after = step_event_count = 3`) instead of braking
to rest. -/
theorem C1_final_rate_ignores_exit_factor :
    (∀ (cfg : config_t) (block : block_t) (entry_factor x x' : ℚ),
      calculate_trapezoid_for_block cfg block entry_factor x =
        calculate_trapezoid_for_block cfg block entry_factor x') ∧
    calculate_trapezoid_for_block demo_config short_block 1 0 =
      .ok { short_block with initial_rate := 100, accelerate_until := 0
                             decelerate_after := 3 } :=
  ⟨fun _ _ _ _ _ => rfl, rfl⟩

/-- C2: the claim says every index `planner_reverse_pass` uses to access
`block_buffer` lies in `[0, BLOCK_BUFFER_SIZE)` for every reachable pair of
queue indices.  On the reachable wrapped queue `head = 0, tail = 3` the
walk `block_index = (block_index - 1) % BLOCK_BUFFER_SIZE` (C truncated
remainder, stepper_plan.c:206) produces `-1` and the pass accesses
`block_buffer[-1]`, for any model of `sqrt`. -/
theorem C2_reverse_pass_goes_out_of_bounds :
    ∀ sq : ℚ → ℚ, planner_reverse_pass demo_config sq wrapped_state =
      .error "block_buffer index out of bounds" :=
  fun _ => rfl

unseal Rat.mul Rat.add Rat.sub Rat.inv Rat.ofScientific in
/-- C3: the claim says that with acceleration management disabled an
admission ends with `accelerate_until = decelerate_after = 0` and
`rate_delta = 0` and no undefined arithmetic.  The source zeroes those
fields (lines 345-347) but then calls
`calculate_trapezoid_for_block(block, 1.0, 1.0)` (line 361) on the very
block whose `rate_delta` it just zeroed, so
`acceleration_per_minute = 0`, `estimate_acceleration_distance` divides by
zero, and the `(int32_t)ceil(...)` conversions of the resulting non-finite
doubles are undefined, overwriting `accelerate_until`/`decelerate_after`. -/
theorem C3_disabled_mode_trapezoid_divides_by_zero :
    ∀ sq : ℚ → ℚ, plan_buffer_line demo_config sq empty_disabled_state
        1 0 0 1000000 10 =
      .error "int32 conversion of non-finite double (zero acceleration_per_minute)" :=
  fun _ => rfl

/-- C4: the claim says `planner_forward_pass` applies its cap only to
blocks whose predecessor exists and never reads through an absent
`previous`.  The kernel (stepper_plan.c:218) dereferences
`previous->entry_factor` with no NULL check, and the pass always reaches a
call with `current ≠ NULL, previous = NULL` (here: a one-block queue), for
any model of `sqrt`. -/
theorem C4_forward_pass_dereferences_null_previous :
    ∀ sq : ℚ → ℚ, planner_forward_pass demo_config sq one_block_state =
      .error "null pointer dereference (previous)" :=
  fun _ => rfl

unseal Rat.mul Rat.add Rat.sub Rat.inv Rat.ofScientific in
/-- C5: the claim says every queued block satisfies
`0 ≤ accelerate_until ≤ decelerate_after ≤ step_event_count`.  The
conservative trapezoid computed at admission (entry = exit = 0,
stepper_plan.c:343) on a 3-step block with nominal rate 100 and
`rate_delta = 1` takes the negative-plateau branch with
`accelerate_steps = ⌈3/2⌉ = 2` and `plateau = 3 - 4 = -1`, yielding
`accelerate_until = 2 > decelerate_after = 1`. -/
theorem C5_trapezoid_breaks_ordering_invariant :
    calculate_trapezoid_for_block demo_config short_block 0 0 =
      .ok { short_block with initial_rate := 0, accelerate_until := 2
                             decelerate_after := 1 } ∧
    ¬ ({ short_block with initial_rate := 0, accelerate_until := 2
                          decelerate_after := 1 } : block_t).accelerate_until ≤
      ({ short_block with initial_rate := 0, accelerate_until := 2
                          decelerate_after := 1 } : block_t).decelerate_after :=
  ⟨rfl, by decide⟩

/-- C6: the claim says that after every planner operation the
`entry_factor` of every queued block is a well-defined number in `[0, 1]`.
`planner_recalculate` on any nonempty queue (here: one queued block) reads
`previous->entry_factor` through a NULL pointer in the forward pass, so it
has no defined result state at all, for any model of `sqrt`. -/
theorem C6_recalculate_has_no_defined_result :
    ∀ sq : ℚ → ℚ, planner_recalculate demo_config sq one_block_state =
      .error "null pointer dereference (previous)" :=
  fun _ => rfl

unseal Rat.mul Rat.add Rat.sub Rat.inv Rat.ofScientific in
/-- C7: the claim asserts the junction-jerk bound on the queue state after
`plan_buffer_line` returns with acceleration management enabled.  Every
such call ends in `planner_recalculate`, whose forward pass reads
`previous->entry_factor` through NULL (already for the very first admitted
block), so the post-state the claim quantifies over is undefined, for any
model of `sqrt`. -/
theorem C7_admission_post_state_is_undefined :
    ∀ sq : ℚ → ℚ, plan_buffer_line demo_config sq empty_enabled_state
        1 0 0 1000000 10 =
      .error "null pointer dereference (previous)" :=
  fun _ => rfl

/-- C9: the claim says two successive `planner_recalculate` calls leave
every block field unchanged.  Already the first call on a queue with one
block reads through a NULL `previous` pointer, so the composition of the
two calls has no defined result, for any model of `sqrt`. -/
theorem C9_double_recalculate_has_no_defined_result :
    ∀ sq : ℚ → ℚ,
      (planner_recalculate demo_config sq one_block_state >>=
        planner_recalculate demo_config sq) =
      .error "null pointer dereference (previous)" :=
  fun _ => rfl

/-- C10: the claim says all three phases of `planner_recalculate` leave the
reserved sentinel slot at index `head` unmodified.  On a one-block queue
with `head = 1` whose sentinel slot carries `entry_factor = 1`, the
reverse pass (phase 1) already writes `entry_factor = 0` into that sentinel
slot, for any model of `sqrt` (the post-decrement walk starts the kernel
window at `block_buffer[head]` itself). -/
theorem C10_reverse_pass_writes_sentinel_slot :
    ∀ sq : ℚ → ℚ,
      (planner_reverse_pass demo_config sq sentinel_state).map
        (fun s => (s.block_buffer.get? 1).map block_t.entry_factor) =
        .ok (some 0) ∧
      (sentinel_state.block_buffer.get? 1).map block_t.entry_factor = some 1 ∧
      sentinel_state.block_buffer_head = 1 :=
  fun _ => ⟨rfl, rfl, rfl⟩

/-- C8: a `plan_buffer_line(0, 0, 0, duration_us, length_mm)` call is a
no-op at the public interface.  Whenever the buffer is not full and `head`
is a valid slot holding block `b`, the call returns with `head`, `tail` and
every slot other than the sentinel slot at `head` unchanged; only the
unpublished sentinel slot receives the partial writes
`steps_* = 0, step_event_count = 0`, so no block is admitted and the
consumer can never observe a `step_event_count = 0` block. -/
theorem C8_zero_delta_is_public_noop (cfg : config_t) (sq : ℚ → ℚ)
    (s : planner_state_t) (b : block_t) (microseconds : ℤ) (millimeters : ℚ)
    (hfull : s.block_buffer_tail ≠
      Int.tmod (s.block_buffer_head + 1) cfg.BLOCK_BUFFER_SIZE)
    (hlo : 0 ≤ s.block_buffer_head)
    (hhi : s.block_buffer_head < cfg.BLOCK_BUFFER_SIZE)
    (hget : s.block_buffer.get? s.block_buffer_head.toNat = some b)
    (hlen : s.block_buffer_head.toNat < s.block_buffer.length) :
    plan_buffer_line cfg sq s 0 0 0 microseconds millimeters =
      .ok { s with block_buffer :=
        s.block_buffer.set s.block_buffer_head.toNat (zero_length_scratch b) } := by
  unfold plan_buffer_line
  rw [if_neg hfull]
  simp only [buf_read, buf_write, bind, Except.bind, if_pos (And.intro hlo hhi), hget,
    abs_zero, max_self, if_pos hlen, zero_length_scratch]
  norm_num

/-- C8 witness: the zero-delta no-op theorem applied to the concrete empty
queue (`head = tail = 0`) with the demo configuration. -/
theorem C8_zero_delta_is_public_noop_witness :
    (empty_enabled_state.block_buffer_tail ≠
      Int.tmod (empty_enabled_state.block_buffer_head + 1) demo_config.BLOCK_BUFFER_SIZE) ∧
    (0:ℤ) ≤ empty_enabled_state.block_buffer_head ∧
    empty_enabled_state.block_buffer_head < demo_config.BLOCK_BUFFER_SIZE ∧
    empty_enabled_state.block_buffer.get? empty_enabled_state.block_buffer_head.toNat =
      some zero_block ∧
    empty_enabled_state.block_buffer_head.toNat < empty_enabled_state.block_buffer.length ∧
    plan_buffer_line demo_config (fun q => q) empty_enabled_state 0 0 0 1000000 10 =
      .ok { empty_enabled_state with block_buffer := empty_enabled_state.block_buffer.set empty_enabled_state.block_buffer_head.toNat (zero_length_scratch zero_block) } :=
  ⟨by decide, by decide, by decide, by decide, by decide,
    C8_zero_delta_is_public_noop demo_config (fun q => q) empty_enabled_state zero_block
      1000000 10 (by decide) (by decide) (by decide) (by decide) (by decide)⟩
